import Mathlib

/-!
Verification of the railway-monitoring repository against its specification.

The development shallowly embeds the JavaScript sources:

* `src/cctv-gateway/src/server.js` (bundled with `auth/stream.token.js`):
  stream-token validation, the replay set and its periodic sweep, and the
  HTTP endpoints that consume them;
* `src/cctv-gateway/src/webrtc/webrtc.session.js`: the viewer-admission
  handshake (`verifyClient`);
* `src/unnamed/part_000` (`streams/rtsp.manager.js`): the per-camera
  ffmpeg supervisor, viewer accounting and the idle reaper;
* `src/unnamed/part_004` (`state/session.state.js`): the session store;
* `src/src/cctv/camera.access.js` (bundled with `camera.registry.js`):
  the camera registry and stream-token minting.

Machine integers are modelled as `Nat` (all JavaScript values involved are
non-negative millisecond timestamps and small counters), JavaScript `Map`s
as association lists or as functions `String → Option _`, thrown
exceptions as `Except`, and `null`/`undefined` as `Option`.
-/

namespace RailwayMonitoring

/-! ## Stream tokens (cctv-gateway auth/stream.token.js, camera.access.js)

A decoded token payload.  `jwt.sign` in `generateStreamToken` is called
with `expiresIn: STREAM_TOKEN_TTL` and a payload that already carries
`iat = Math.floor(now/1000)`, so (per the jsonwebtoken library) the signed
claims include `exp = iat + STREAM_TOKEN_TTL` in seconds, next to the
application-level `expiresAt` ISO string, modelled here in milliseconds. -/

structure TokenPayload where
  cameraId : Option String
  expiresAtMs : Option Nat
  permissions : Option (List String)
  monitorId : Option String
  iat : Nat
  exp : Nat
deriving DecidableEq, Repr

/-- Outcome of the signature check performed by `jwt.verify` with the shared
key: either the token is not well signed, or it decodes to a payload.  The
function standing for the key is abstract; only the backend can mint. -/
inductive SigCheck where
  | badSignature : SigCheck
  | ok : TokenPayload → SigCheck
deriving DecidableEq, Repr

/-- The gateway state relevant to token validation: the `usedTokens` map
(token string to `expiresAt` in ms), from `stream.token.js`. -/
structure GatewayState where
  usedTokens : List (String × Nat)
deriving DecidableEq, Repr

/-- The object returned by `validateStreamToken` in `stream.token.js`. -/
structure ValidationResult where
  valid : Bool
  cameraId : Option String
  expiresAtMs : Option Nat
  permissions : Option (List String)
  error : Option String
deriving DecidableEq, Repr

/-- An all-fields-absent invalid result carrying only an error message. -/
def invalidResult (e : String) : ValidationResult :=
  { valid := false, cameraId := none, expiresAtMs := none,
    permissions := none, error := some e }

/-- `validateStreamToken` from `stream.token.js` lines 244-338.  The replay
check on `usedTokens` runs first; then `jwt.verify` (signature check, then
the library's own expiry check, which throws `TokenExpiredError` when
`Math.floor(now/1000) >= exp`); then the required-field checks; then the
explicit `expiresAt < now` comparison; a token that passes everything is
inserted into `usedTokens` keyed by its `expiresAt` value in ms.
`now` is the current wall-clock time in ms. -/
def validateStreamToken (verify : String → SigCheck) (now : Nat)
    (st : GatewayState) (token : Option String) :
    ValidationResult × GatewayState :=
  match token with
  | none => (invalidResult "Token required", st)
  | some tok =>
    if (st.usedTokens.lookup tok).isSome then
      (invalidResult "Token already used", st)
    else
      match verify tok with
      | SigCheck.badSignature => (invalidResult "Invalid token signature", st)
      | SigCheck.ok p =>
        if p.exp ≤ now / 1000 then
          (invalidResult "Token expired", st)
        else
          match p.cameraId with
          | none => (invalidResult "Token missing cameraId", st)
          | some cid =>
            match p.expiresAtMs with
            | none => (invalidResult "Token missing expiresAt", st)
            | some e =>
              if e < now then
                ({ valid := false, cameraId := some cid, expiresAtMs := some e,
                   permissions := none, error := some "Token expired" }, st)
              else
                ({ valid := true, cameraId := some cid, expiresAtMs := some e,
                   permissions := some (p.permissions.getD ["VIEW"]),
                   error := none },
                 { usedTokens := (tok, e) :: st.usedTokens })

/-- The periodic cleanup in `stream.token.js` lines 229-236: every entry
whose stored expiry is strictly in the past is deleted. -/
def sweepUsedTokens (now : Nat) (st : GatewayState) : GatewayState :=
  { usedTokens := st.usedTokens.filter (fun kv => decide (now ≤ kv.2)) }

/-- `hasPermission` from `stream.token.js` lines 347-352. -/
def hasPermission (v : ValidationResult) (perm : String) : Bool :=
  if v.valid then (v.permissions.getD []).contains perm else false

/-- The payload minted by `generateStreamToken` in
`src/src/cctv/camera.access.js` lines 30-72 at wall-clock time `nowMs`
with TTL `ttl` seconds: `expiresAt = now + ttl*1000` ms,
`iat = Math.floor(now/1000)`, and (via `expiresIn`) `exp = iat + ttl`. -/
def mintedPayload (cameraId monitorId : String) (nowMs ttl : Nat) :
    TokenPayload :=
  { cameraId := some cameraId
    expiresAtMs := some (nowMs + ttl * 1000)
    permissions := some ["VIEW"]
    monitorId := some monitorId
    iat := nowMs / 1000
    exp := nowMs / 1000 + ttl }

/-- Response body of `POST /validate-token` in `server.js` lines 54-72. -/
structure ValidateTokenResponse where
  valid : Bool
  cameraId : Option String
  expiresAtMs : Option Nat
  error : Option String
deriving DecidableEq, Repr

/-- The `POST /validate-token` handler from `server.js` lines 54-72: a
missing token yields a 400 body; otherwise the handler calls
`validateStreamToken` (thereby updating the replay set) and echoes the
result fields. -/
def postValidateToken (verify : String → SigCheck) (now : Nat)
    (st : GatewayState) (body : Option String) :
    ValidateTokenResponse × GatewayState :=
  match body with
  | none =>
    ({ valid := false, cameraId := none, expiresAtMs := none,
       error := some "Token required" }, st)
  | some tok =>
    let r := validateStreamToken verify now st (some tok)
    ({ valid := r.1.valid, cameraId := r.1.cameraId,
       expiresAtMs := r.1.expiresAtMs, error := r.1.error }, r.2)

/-- Decision taken by the WebSocket `verifyClient` callback. -/
inductive ClientDecision where
  | accept : ValidationResult → ClientDecision
  | reject : Nat → String → ClientDecision
deriving DecidableEq, Repr

/-- `verifyClient` from `webrtc.session.js` lines 44-85: missing token is
rejected 401 with reason `Token required`; an invalid validation result is
rejected 401 with its error; a valid result without the VIEW permission is
rejected 403; otherwise the connection is admitted. -/
def verifyClient (verify : String → SigCheck) (now : Nat)
    (st : GatewayState) (tokenParam : Option String) :
    ClientDecision × GatewayState :=
  match tokenParam with
  | none => (ClientDecision.reject 401 "Token required", st)
  | some tok =>
    let r := validateStreamToken verify now st (some tok)
    if r.1.valid then
      if hasPermission r.1 "VIEW" then (ClientDecision.accept r.1, r.2)
      else (ClientDecision.reject 403 "No VIEW permission", r.2)
    else
      (ClientDecision.reject 401 (r.1.error.getD "Invalid token"), r.2)

/-! ### Gateway event traces

Interleavings of validation calls and replay-set sweeps, each stamped with
its wall-clock occurrence time in ms. -/

inductive GwEvent where
  | validateEv : String → Nat → GwEvent
  | sweepEv : Nat → GwEvent
deriving DecidableEq, Repr

/-- Effect of one gateway event on the replay set. -/
def gwStep (verify : String → SigCheck) (st : GatewayState) :
    GwEvent → GatewayState
  | GwEvent.validateEv tok t => (validateStreamToken verify t st (some tok)).2
  | GwEvent.sweepEv t => sweepUsedTokens t st

/-- Run a list of gateway events from a state. -/
def gwRun (verify : String → SigCheck) (st : GatewayState) :
    List GwEvent → GatewayState
  | [] => st
  | ev :: evs => gwRun verify (gwStep verify st ev) evs

/-- Occurrence time of a gateway event. -/
def eventTime : GwEvent → Nat
  | GwEvent.validateEv _ t => t
  | GwEvent.sweepEv t => t

/-! ## RTSP stream supervisor (src/unnamed/part_000, streams/rtsp.manager.js)

Worker status as in the `StreamInfo` typedef. -/

inductive WorkerStatus where
  | starting
  | running
  | stopping
  | stopped
  | errored
deriving DecidableEq, Repr

/-- Default `MAX_VIEWERS_PER_CAMERA` (rtsp.manager.js line 79). -/
def MAX_VIEWERS_PER_CAMERA : Nat := 10

/-- Default `STREAM_TIMEOUT_NO_VIEWERS` in ms (rtsp.manager.js line 82). -/
def STREAM_TIMEOUT_NO_VIEWERS : Nat := 60000

/-! ### Restart supervision (claim about MAX_RESTARTS)

The supervision loop for a single camera, abstracted to the fields the
exit handler reads and writes.  Each call of `startStream` that actually
spawns builds a fresh `streamInfo` literal with `restartCount: 0` and
`status` moving synchronously from STARTING to RUNNING
(rtsp.manager.js lines 168-207); the `exit` handler mutates the record
captured by its closure, which in every reachable trace is the record
currently stored in `activeStreams` (lines 245-284). -/

structure WorkerRec where
  status : WorkerStatus
  restartCount : Nat
deriving DecidableEq, Repr

/-- One camera slot of the supervisor, with ghost counters: `startCount`
counts ffmpeg spawns, `failCount` counts unexpected exits.
`restartPending` records a scheduled `setTimeout` restart whose closure
refers to the current record. -/
structure SupervisorState where
  current : Option WorkerRec
  restartPending : Bool
  startCount : Nat
  failCount : Nat
deriving DecidableEq, Repr

/-- `startStream` (rtsp.manager.js lines 142-207), restricted to the
restart-relevant effects: an existing RUNNING/STARTING entry is returned
unchanged; otherwise (after `stopStream` marks an errored old record
STOPPING) a fresh record with `restartCount := 0` replaces the entry and
the spawn counter advances. -/
def supStartStream (s : SupervisorState) : SupervisorState :=
  match s.current with
  | some r =>
    if r.status = WorkerStatus.running ∨ r.status = WorkerStatus.starting then s
    else
      { s with current := some { status := WorkerStatus.running, restartCount := 0 },
               startCount := s.startCount + 1 }
  | none =>
    { s with current := some { status := WorkerStatus.running, restartCount := 0 },
             startCount := s.startCount + 1 }

/-- The ffmpeg `exit` handler (rtsp.manager.js lines 245-284) for the
current process.  Expected exit (status STOPPING) deletes the entry.
Unexpected exit sets status ERROR and, when `restartCount < 5`, increments
it and schedules a delayed restart; otherwise it only reports
`Max restart attempts reached`.  A process that is not live (no entry, or
already exited) produces no event. -/
def supExit (s : SupervisorState) : SupervisorState :=
  match s.current with
  | some r =>
    if r.status = WorkerStatus.stopping then
      { s with current := none }
    else if r.status = WorkerStatus.running ∨ r.status = WorkerStatus.starting then
      if r.restartCount < 5 then
        { s with current := some { status := WorkerStatus.errored,
                                   restartCount := r.restartCount + 1 },
                 restartPending := true,
                 failCount := s.failCount + 1 }
      else
        { s with current := some { status := WorkerStatus.errored,
                                   restartCount := r.restartCount },
                 failCount := s.failCount + 1 }
    else s
  | none => s

/-- The scheduled restart callback (rtsp.manager.js lines 264-274): fires
only if pending; re-checks that the camera still has an entry in ERROR
state, and then calls `startStream`. -/
def supRestartTimer (s : SupervisorState) : SupervisorState :=
  if s.restartPending then
    let s1 := { s with restartPending := false }
    match s1.current with
    | some r => if r.status = WorkerStatus.errored then supStartStream s1 else s1
    | none => s1
  else s

/-- Events of the restart supervision loop. -/
inductive SupEvent where
  | exitEvent : SupEvent
  | timerEvent : SupEvent
deriving DecidableEq, Repr

/-- One supervision step. -/
def supStep (s : SupervisorState) : SupEvent → SupervisorState
  | SupEvent.exitEvent => supExit s
  | SupEvent.timerEvent => supRestartTimer s

/-- Run a list of supervision events. -/
def supRun (s : SupervisorState) : List SupEvent → SupervisorState
  | [] => s
  | ev :: evs => supRun (supStep s ev) evs

/-- Initial state: the first `startStream` for the camera. -/
def supInit : SupervisorState :=
  supStartStream { current := none, restartPending := false,
                   startCount := 0, failCount := 0 }

/-- One crash-and-restart cycle: the ffmpeg child exits unexpectedly, then
the scheduled restart fires. -/
def failCycle : List SupEvent := [SupEvent.exitEvent, SupEvent.timerEvent]

/-- `n` consecutive crash-and-restart cycles. -/
def failCycles : Nat → List SupEvent
  | 0 => []
  | n + 1 => failCycle ++ failCycles n

/-! ### Viewer accounting and the idle reaper -/

/-- The fields of `streamInfo` read and written by the viewer-accounting
functions, the stdout data handler and the no-viewer reaper. -/
structure RtspStreamRec where
  status : WorkerStatus
  viewerCount : Nat
  lastViewerActivity : Nat
deriving DecidableEq, Repr

/-- The fresh record built by `startStream` at time `t`
(rtsp.manager.js lines 168-178), restricted to these fields, after the
synchronous STARTING to RUNNING move. -/
def initialStreamRec (t : Nat) : RtspStreamRec :=
  { status := WorkerStatus.running, viewerCount := 0, lastViewerActivity := t }

/-- The ffmpeg stdout `data` handler (rtsp.manager.js lines 210-221): it
refreshes `lastViewerActivity` unconditionally on every output chunk,
independent of `viewerCount`. -/
def onStdoutData (t : Nat) (r : RtspStreamRec) : RtspStreamRec :=
  { r with lastViewerActivity := t }

/-- `stopStream` (rtsp.manager.js lines 321-351), restricted to the status
field of the record: a no-op when already STOPPING or STOPPED, otherwise
the status becomes STOPPING. -/
def stopStreamRec (r : RtspStreamRec) : RtspStreamRec :=
  if r.status = WorkerStatus.stopping ∨ r.status = WorkerStatus.stopped then r
  else { r with status := WorkerStatus.stopping }

/-- One tick of the periodic no-viewer reaper for a single entry
(rtsp.manager.js lines 512-522, every 30 s): if `viewerCount = 0` and
`now - lastViewerActivity > STREAM_TIMEOUT_NO_VIEWERS` the stream is
stopped. -/
def reaperTick (now : Nat) (r : RtspStreamRec) : RtspStreamRec :=
  if r.viewerCount = 0 ∧ STREAM_TIMEOUT_NO_VIEWERS < now - r.lastViewerActivity then
    stopStreamRec r
  else r

/-- `addViewer` (rtsp.manager.js lines 358-376): throws when no stream is
active or the viewer cap is reached, otherwise increments the count and
refreshes `lastViewerActivity`. -/
def addViewer (now : Nat) (r : Option RtspStreamRec) :
    Except String RtspStreamRec :=
  match r with
  | none => Except.error "Stream not found for camera"
  | some r =>
    if MAX_VIEWERS_PER_CAMERA ≤ r.viewerCount then
      Except.error "Max viewers reached for camera"
    else
      Except.ok { r with viewerCount := r.viewerCount + 1,
                         lastViewerActivity := now }

/-- `removeViewer` (rtsp.manager.js lines 383-405): a no-op when no stream
is active; otherwise the count becomes `Math.max(0, count - 1)` (truncated
subtraction on `Nat`), and when it hits 0 with the idle timeout already
exceeded the stream is stopped. -/
def removeViewer (now : Nat) (r : Option RtspStreamRec) :
    Option RtspStreamRec :=
  match r with
  | none => none
  | some r =>
    let r1 := { r with viewerCount := r.viewerCount - 1 }
    if r1.viewerCount = 0 ∧ STREAM_TIMEOUT_NO_VIEWERS < now - r1.lastViewerActivity then
      some (stopStreamRec r1)
    else some r1

/-- Viewer-accounting events on a live stream record. -/
inductive ViewerEvent where
  | addV : Nat → ViewerEvent
  | removeV : Nat → ViewerEvent
deriving DecidableEq, Repr

/-- Apply one viewer event; an `addViewer` exception is caught by the
caller (webrtc.session.js lines 106-127) and leaves the record unchanged. -/
def viewerStep (r : RtspStreamRec) : ViewerEvent → RtspStreamRec
  | ViewerEvent.addV t =>
    match addViewer t (some r) with
    | Except.ok r1 => r1
    | Except.error _ => r
  | ViewerEvent.removeV t => (removeViewer t (some r)).getD r

/-- Run a list of viewer events. -/
def viewerRun (r : RtspStreamRec) : List ViewerEvent → RtspStreamRec
  | [] => r
  | ev :: evs => viewerRun (viewerStep r ev) evs

/-- Stream-lifetime events seen by an idle (zero-viewer) worker: ffmpeg
stdout chunks and reaper ticks. -/
inductive RtspEvent where
  | dataChunk : Nat → RtspEvent
  | reaper : Nat → RtspEvent
deriving DecidableEq, Repr

/-- Apply one stream-lifetime event. -/
def rtspStep (r : RtspStreamRec) : RtspEvent → RtspStreamRec
  | RtspEvent.dataChunk t => onStdoutData t r
  | RtspEvent.reaper t => reaperTick t r

/-- Run a list of stream-lifetime events. -/
def rtspRun (r : RtspStreamRec) : List RtspEvent → RtspStreamRec
  | [] => r
  | ev :: evs => rtspRun (rtspStep r ev) evs

/-! ## Session store (src/unnamed/part_004, state/session.state.js)

JavaScript falsy checks on the string arguments are modelled as equality
with the empty string; the `sessions` Map as a function
`String → Option SessionData`; `Date` values as ms timestamps. -/

structure MediaFlags where
  videoEnabled : Bool
  audioEnabled : Bool
deriving DecidableEq, Repr

/-- The `sessionData` object of session.state.js lines 50-72, plus the
`endedAt` field added by `endSession`. -/
structure SessionData where
  kioskId : String
  monitorId : String
  monitorSocketId : String
  startedAt : Nat
  lastActivityAt : Nat
  status : String
  callState : String
  callInitiatedBy : Option String
  callStartedAt : Option Nat
  mediaKiosk : MediaFlags
  mediaMonitor : MediaFlags
  endedAt : Option Nat
deriving DecidableEq, Repr

/-- The in-memory `sessions` Map keyed by `kioskId`. -/
abbrev SessionStore : Type := String → Option SessionData

/-- The fresh session literal of `createSession`
(session.state.js lines 50-72). -/
def newSessionData (now : Nat) (kioskId monitorId monitorSocketId : String) :
    SessionData :=
  { kioskId := kioskId, monitorId := monitorId,
    monitorSocketId := monitorSocketId,
    startedAt := now, lastActivityAt := now, status := "active",
    callState := "idle", callInitiatedBy := none, callStartedAt := none,
    mediaKiosk := { videoEnabled := false, audioEnabled := false },
    mediaMonitor := { videoEnabled := false, audioEnabled := false },
    endedAt := none }

/-- `createSession` (session.state.js lines 40-86): missing arguments and
an existing session for the kiosk throw; otherwise the new session is
stored and a copy returned. -/
def createSession (now : Nat) (store : SessionStore)
    (kioskId monitorId monitorSocketId : String) :
    Except String (SessionData × SessionStore) :=
  if kioskId = "" ∨ monitorId = "" ∨ monitorSocketId = "" then
    Except.error "kioskId, monitorId, and monitorSocketId are required"
  else if (store kioskId).isSome then
    Except.error ("Session already exists for kiosk: " ++ kioskId)
  else
    let s := newSessionData now kioskId monitorId monitorSocketId
    Except.ok (s, fun k => if k = kioskId then some s else store k)

/-- `endSession` (session.state.js lines 94-120): returns the ended copy
and deletes the entry; `null` on a missing kiosk or session. -/
def endSession (now : Nat) (store : SessionStore) (kioskId : String) :
    Option SessionData × SessionStore :=
  if kioskId = "" then (none, store)
  else
    match store kioskId with
    | none => (none, store)
    | some s =>
      (some { s with endedAt := some now, status := "ended" },
       fun k => if k = kioskId then none else store k)

/-- The session mutation performed by `updateCallState`
(session.state.js lines 331-341).  The `callState` string is written
unconditionally; a truthy `initiatedBy` overwrites `callInitiatedBy`; a
move to `connected` sets `callStartedAt` when it is null; a move to
`ended` or `idle` clears both call fields. -/
def applyCallState (now : Nat) (callState : String) (initiatedBy : Option String)
    (s : SessionData) : SessionData :=
  let s1 := { s with callState := callState }
  let s2 :=
    match initiatedBy with
    | some v => if v = "" then s1 else { s1 with callInitiatedBy := some v }
    | none => s1
  let s3 :=
    if callState = "connected" ∧ s2.callStartedAt = none then
      { s2 with callStartedAt := some now }
    else s2
  if callState = "ended" ∨ callState = "idle" then
    { s3 with callStartedAt := none, callInitiatedBy := none }
  else s3

/-- `updateCallState` entry point (session.state.js lines 321-329, 343-350). -/
def updateCallState (now : Nat) (store : SessionStore)
    (kioskId callState : String) (initiatedBy : Option String) :
    Bool × SessionStore :=
  if kioskId = "" ∨ callState = "" then (false, store)
  else
    match store kioskId with
    | none => (false, store)
    | some s =>
      (true, fun k => if k = kioskId then
                        some (applyCallState now callState initiatedBy s)
                      else store k)

/-- The `mediaState` argument of `updateMediaState`; `none` stands for a
JavaScript `undefined` field. -/
structure MediaStateArg where
  videoEnabled : Option Bool
  audioEnabled : Option Bool
deriving DecidableEq, Repr

/-- Field-wise assignment of the defined entries of a `mediaState`
argument (session.state.js lines 370-384). -/
def applyMediaArg (arg : MediaStateArg) (m : MediaFlags) : MediaFlags :=
  let m1 :=
    match arg.videoEnabled with
    | some v => { m with videoEnabled := v }
    | none => m
  match arg.audioEnabled with
  | some a => { m1 with audioEnabled := a }
  | none => m1

/-- The session mutation performed by `updateMediaState`
(session.state.js lines 370-384): the `kiosk` or `monitor` sub-record is
updated field-wise; any other role string changes nothing (the call still
returns true). -/
def applyMediaRole (role : String) (arg : MediaStateArg) (s : SessionData) :
    SessionData :=
  if role = "kiosk" then
    { s with mediaKiosk := applyMediaArg arg s.mediaKiosk }
  else if role = "monitor" then
    { s with mediaMonitor := applyMediaArg arg s.mediaMonitor }
  else s

/-- `updateMediaState` entry point (session.state.js lines 360-366, 392). -/
def updateMediaState (store : SessionStore) (kioskId role : String)
    (arg : MediaStateArg) : Bool × SessionStore :=
  if kioskId = "" ∨ role = "" then (false, store)
  else
    match store kioskId with
    | none => (false, store)
    | some s =>
      (true, fun k => if k = kioskId then some (applyMediaRole role arg s)
                      else store k)

/-- Replies of the start-monitoring command. -/
inductive MonitorReply where
  | errorReply : String → MonitorReply
  | monitoringStarted : String → MonitorReply
deriving DecidableEq, Repr

/-- Modelled from the spec: the `start-monitoring` socket handler of the
signaling hub is not among the provided sources (only its session-store
callees in session.state.js and its test clients are).  Spec section 4.1:
it fails with KIOSK_NOT_FOUND if the kiosk is not present, with
SESSION_CONFLICT if the kiosk already has a session whose owner differs
from this monitor, and otherwise creates the session in callState IDLE
(via the real `createSession`, after ending a same-owner session so that
`createSession` does not throw) and replies monitoring-started.
`kioskPresent` abstracts membership of the kiosk in the presence map. -/
def startMonitoring (now : Nat) (kioskPresent : Bool) (store : SessionStore)
    (kioskId monitorId monitorSocketId : String) :
    MonitorReply × SessionStore :=
  if kioskPresent = false then (MonitorReply.errorReply "KIOSK_NOT_FOUND", store)
  else
    match store kioskId with
    | some s =>
      if s.monitorId ≠ monitorId then
        (MonitorReply.errorReply "SESSION_CONFLICT", store)
      else
        let store1 := (endSession now store kioskId).2
        match createSession now store1 kioskId monitorId monitorSocketId with
        | Except.ok (_, store2) => (MonitorReply.monitoringStarted kioskId, store2)
        | Except.error e => (MonitorReply.errorReply e, store1)
    | none =>
      match createSession now store kioskId monitorId monitorSocketId with
      | Except.ok (_, store2) => (MonitorReply.monitoringStarted kioskId, store2)
      | Except.error e => (MonitorReply.errorReply e, store)

/-! ## Camera registry (src/src/cctv/camera.access.js, camera.registry.js)

The claims about the registry concern which fields appear in returned
objects, so JavaScript objects are modelled as association lists from
field names to values. -/

inductive CVal where
  | str : String → CVal
  | bool : Bool → CVal
  | num : Nat → CVal
  | null : CVal
deriving DecidableEq, Repr

/-- A JavaScript object as an ordered field list. -/
abbrev JsObj : Type := List (String × CVal)

/-- The field names of an object. -/
def objKeys (o : JsObj) : List String := o.map (fun kv => kv.1)

/-- Field access, `null` when absent. -/
def getField (o : JsObj) (k : String) : CVal := (o.lookup k).getD CVal.null

/-- JavaScript truthiness of a field value. -/
def isTruthy : CVal → Bool
  | CVal.str s => s ≠ ""
  | CVal.bool b => b
  | CVal.num n => n ≠ 0
  | CVal.null => false

/-- The `cameras` Map of camera.registry.js as an insertion-ordered list. -/
abbrev CameraRegistry : Type := List (String × JsObj)

/-- Arguments of `registerCamera`; `none` stands for an absent field. -/
structure CameraConfig where
  cameraId : String
  rtspUrl : String
  location : Option String
  enabled : Option Bool
deriving DecidableEq, Repr

/-- The stored `cameraData` object of `registerCamera`
(camera.registry.js lines 172-180), including the secret `rtspUrl`. -/
def storedCameraData (now : Nat) (c : CameraConfig) : JsObj :=
  [("cameraId", CVal.str c.cameraId),
   ("rtspUrl", CVal.str c.rtspUrl),
   ("location", CVal.str (c.location.getD "Unknown")),
   ("enabled", CVal.bool (c.enabled ≠ some false)),
   ("registeredAt", CVal.num now),
   ("status", CVal.str "OFFLINE"),
   ("lastStatusUpdate", CVal.num now)]

/-- The projection of a stored camera returned by `registerCamera`
(camera.registry.js lines 191-197): no `rtspUrl`, no `lastStatusUpdate`. -/
def registerReturnView (o : JsObj) : JsObj :=
  [("cameraId", getField o "cameraId"),
   ("location", getField o "location"),
   ("enabled", getField o "enabled"),
   ("registeredAt", getField o "registeredAt"),
   ("status", getField o "status")]

/-- The projection used by `getCamera` and `getAllCameras`
(camera.registry.js lines 217-224 and 234-241): every stored field except
`rtspUrl`. -/
def cameraView (o : JsObj) : JsObj :=
  [("cameraId", getField o "cameraId"),
   ("location", getField o "location"),
   ("enabled", getField o "enabled"),
   ("registeredAt", getField o "registeredAt"),
   ("status", getField o "status"),
   ("lastStatusUpdate", getField o "lastStatusUpdate")]

/-- `registerCamera` (camera.registry.js lines 157-198): validates the
arguments, rejects duplicates, stores the full record (with `rtspUrl`) and
returns the stripped view. -/
def registerCamera (now : Nat) (reg : CameraRegistry) (c : CameraConfig) :
    Except String (JsObj × CameraRegistry) :=
  if c.cameraId = "" ∨ c.rtspUrl = "" then
    Except.error "cameraId and rtspUrl are required"
  else if ¬ "rtsp://".data.isPrefixOf c.rtspUrl.data then
    Except.error "rtspUrl must start with rtsp://"
  else if (reg.lookup c.cameraId).isSome then
    Except.error ("Camera " ++ c.cameraId ++ " already registered")
  else
    let data := storedCameraData now c
    Except.ok (registerReturnView data, reg ++ [(c.cameraId, data)])

/-- `getCamera` (camera.registry.js lines 206-225). -/
def getCamera (reg : CameraRegistry) (cameraId : String) : Option JsObj :=
  if cameraId = "" then none
  else
    match reg.lookup cameraId with
    | none => none
    | some o => some (cameraView o)

/-- `getAllCameras` (camera.registry.js lines 233-248): all stored values
through the stripped view, optionally filtered to truthy `enabled`. -/
def getAllCameras (reg : CameraRegistry) (enabledOnly : Bool) : List JsObj :=
  let all := reg.map (fun kv => cameraView kv.2)
  if enabledOnly then all.filter (fun o => isTruthy (getField o "enabled"))
  else all

/-- `getEnabledCameras` (camera.registry.js lines 255-257). -/
def getEnabledCameras (reg : CameraRegistry) : List JsObj :=
  getAllCameras reg true

/-! ## Theorems -/

/-- Running a concatenation of supervision traces composes. -/
lemma supRun_append (s : SupervisorState) (l1 l2 : List SupEvent) :
    supRun s (l1 ++ l2) = supRun (supRun s l1) l2 := by
  induction l1 generalizing s with
  | nil => rfl
  | cons ev l ih => simp [supRun, ih]

/-- From a freshly (re)started worker, each crash-and-restart cycle ends in
a freshly started worker again, with `restartCount` back at 0 and both
ghost counters advanced by one. -/
lemma supRun_failCycles (c f n : Nat) :
    supRun { current := some { status := WorkerStatus.running, restartCount := 0 },
             restartPending := false, startCount := c, failCount := f }
      (failCycles n) =
    { current := some { status := WorkerStatus.running, restartCount := 0 },
      restartPending := false, startCount := c + n, failCount := f + n } := by
  induction n generalizing c f with
  | zero => rfl
  | succ n ih =>
    show supRun _ (failCycle ++ failCycles n) = _
    rw [supRun_append]
    have h1 : supRun
        { current := some { status := WorkerStatus.running, restartCount := 0 },
          restartPending := false, startCount := c, failCount := f } failCycle =
        { current := some { status := WorkerStatus.running, restartCount := 0 },
          restartPending := false, startCount := c + 1, failCount := f + 1 } := rfl
    rw [h1, ih]
    simp only [SupervisorState.mk.injEq]
    exact ⟨trivial, trivial, by omega, by omega⟩

/-- C3: the claim says that after MAX_RESTARTS = 5 unexpected ffmpeg exits
no further restart is ever scheduled.  The code violates this: every
restart goes through `startStream`, which replaces the entry with a fresh
`streamInfo` whose `restartCount` is 0, so the exit handler of the new
process sees `restartCount = 0 < 5` and schedules yet another restart.
This theorem exhibits the unbounded behaviour: for every `n`, the trace of
`n` crash-and-restart cycles is reachable, spawns `n + 1` ffmpeg processes
for `n` unexpected exits, and after one more unexpected exit — the
`(n+1)`-st failure, for any `n`, in particular the sixth — another restart
is again pending. -/
theorem restart_cap_never_binds (n : Nat) :
    (supRun supInit (failCycles n)).startCount = n + 1 ∧
    (supRun supInit (failCycles n)).failCount = n ∧
    (supRun supInit (failCycles n ++ [SupEvent.exitEvent])).restartPending = true := by
  have hinit : supInit =
      { current := some { status := WorkerStatus.running, restartCount := 0 },
        restartPending := false, startCount := 1, failCount := 0 } := rfl
  have h := supRun_failCycles 1 0 n
  rw [hinit] at *
  refine ⟨?_, ?_, ?_⟩
  · rw [h]
    show 1 + n = n + 1
    omega
  · rw [h]
    show 0 + n = n
    omega
  · rw [supRun_append, h]
    rfl

/-- C5: the claim says a worker whose `viewerCount` has been 0 for longer
than STREAM_TIMEOUT_NO_VIEWERS (60 s) is stopped by the periodic reaper
within one 30 s interval.  The code violates this: the ffmpeg stdout data
handler refreshes `lastViewerActivity` unconditionally, so while the child
produces output the reaper condition never fires.  First conjunct: a
worker with zero viewers from time 0 to 120000 ms, receiving a data chunk
shortly before each reaper tick, is still RUNNING after four ticks.
Second conjunct (the intent, with no data events): the first reaper tick
past the timeout does stop the worker. -/
theorem reaper_defeated_by_stdout_data :
    rtspRun (initialStreamRec 0)
      [RtspEvent.dataChunk 29000, RtspEvent.reaper 30000,
       RtspEvent.dataChunk 59000, RtspEvent.reaper 60000,
       RtspEvent.dataChunk 89000, RtspEvent.reaper 90000,
       RtspEvent.dataChunk 119000, RtspEvent.reaper 120000] =
      { status := WorkerStatus.running, viewerCount := 0,
        lastViewerActivity := 119000 } ∧
    rtspRun (initialStreamRec 0)
      [RtspEvent.reaper 30000, RtspEvent.reaper 61000] =
      { status := WorkerStatus.stopping, viewerCount := 0,
        lastViewerActivity := 0 } := by
  decide

/-- `stopStream` never touches the viewer count. -/
lemma stopStreamRec_viewerCount (r : RtspStreamRec) :
    (stopStreamRec r).viewerCount = r.viewerCount := by
  unfold stopStreamRec
  split_ifs <;> rfl

/-- A single viewer event keeps the count within the cap. -/
lemma viewerStep_count_le (r : RtspStreamRec) (ev : ViewerEvent)
    (h : r.viewerCount ≤ MAX_VIEWERS_PER_CAMERA) :
    (viewerStep r ev).viewerCount ≤ MAX_VIEWERS_PER_CAMERA := by
  cases ev with
  | addV t =>
    by_cases hc : MAX_VIEWERS_PER_CAMERA ≤ r.viewerCount
    · simp [viewerStep, addViewer, hc]
      exact h
    · simp [viewerStep, addViewer, hc]
      omega
  | removeV t =>
    simp only [viewerStep, removeViewer]
    split_ifs <;> simp [stopStreamRec_viewerCount] <;> omega

/-- The viewer count stays within the cap along any event sequence. -/
lemma viewerRun_count_le (r : RtspStreamRec) (evs : List ViewerEvent)
    (h : r.viewerCount ≤ MAX_VIEWERS_PER_CAMERA) :
    (viewerRun r evs).viewerCount ≤ MAX_VIEWERS_PER_CAMERA := by
  induction evs generalizing r with
  | nil => exact h
  | cons ev evs ih => exact ih _ (viewerStep_count_le r ev h)

/-- C7: along every sequence of `addViewer`/`removeViewer` events on a
freshly started worker, `viewerCount` stays between 0 and
MAX_VIEWERS_PER_CAMERA (= 10); `addViewer` at the cap throws and leaves
the record unchanged; `removeViewer` clamps at 0.  (The count is a `Nat`,
so the lower bound is by construction; `Math.max(0, count - 1)` is
truncated subtraction.) -/
theorem viewer_count_within_bounds (t now : Nat) (evs : List ViewerEvent)
    (r : RtspStreamRec) (hmax : r.viewerCount = MAX_VIEWERS_PER_CAMERA) :
    (viewerRun (initialStreamRec t) evs).viewerCount ≤ MAX_VIEWERS_PER_CAMERA ∧
    viewerStep r (ViewerEvent.addV now) = r ∧
    addViewer now (some r) = Except.error "Max viewers reached for camera" ∧
    (∀ r0 : RtspStreamRec, r0.viewerCount = 0 →
      (viewerStep r0 (ViewerEvent.removeV now)).viewerCount = 0) := by
  refine ⟨viewerRun_count_le _ evs (by simp [initialStreamRec]), ?_, ?_, ?_⟩
  · simp [viewerStep, addViewer, hmax]
  · simp [addViewer, hmax]
  · intro r0 h0
    simp only [viewerStep, removeViewer]
    split_ifs <;> simp [stopStreamRec_viewerCount] <;> omega

/-- Witness for C7 at a concrete trace and a concrete full worker. -/
theorem viewer_count_within_bounds_witness :
    (viewerRun (initialStreamRec 0)
        [ViewerEvent.addV 1, ViewerEvent.addV 2, ViewerEvent.removeV 3]).viewerCount ≤
      MAX_VIEWERS_PER_CAMERA ∧
    addViewer 5 (some { status := WorkerStatus.running, viewerCount := 10,
                        lastViewerActivity := 0 }) =
      Except.error "Max viewers reached for camera" :=
  ⟨(viewer_count_within_bounds 0 5 [ViewerEvent.addV 1, ViewerEvent.addV 2, ViewerEvent.removeV 3]
      { status := WorkerStatus.running, viewerCount := 10, lastViewerActivity := 0 }
      (by decide)).1,
   (viewer_count_within_bounds 0 5 [ViewerEvent.addV 1, ViewerEvent.addV 2, ViewerEvent.removeV 3]
      { status := WorkerStatus.running, viewerCount := 10, lastViewerActivity := 0 }
      (by decide)).2.2.1⟩

/-- The keys of the `getCamera`/`getAllCameras` projection are fixed. -/
lemma objKeys_cameraView (o : JsObj) :
    objKeys (cameraView o) =
      ["cameraId", "location", "enabled", "registeredAt", "status",
       "lastStatusUpdate"] := rfl

/-- The keys of the object returned by `registerCamera` are fixed. -/
lemma objKeys_registerReturnView (o : JsObj) :
    objKeys (registerReturnView o) =
      ["cameraId", "location", "enabled", "registeredAt", "status"] := rfl

/-- C8: no outward projection of the camera registry carries the
`rtspUrl` field: the object returned by a successful `registerCamera`,
every `getCamera` result, and every element of `getAllCameras` and
`getEnabledCameras` lack the key, for any registry contents. -/
theorem rtspUrl_stripped_from_projections (now : Nat)
    (reg reg1 : CameraRegistry) (c : CameraConfig) (view : JsObj)
    (cameraId : String)
    (hreg : registerCamera now reg c = Except.ok (view, reg1)) :
    "rtspUrl" ∉ objKeys view ∧
    (∀ o, getCamera reg cameraId = some o → "rtspUrl" ∉ objKeys o) ∧
    (∀ b o, o ∈ getAllCameras reg b → "rtspUrl" ∉ objKeys o) ∧
    (∀ o, o ∈ getEnabledCameras reg → "rtspUrl" ∉ objKeys o) := by
  have hall : ∀ b o, o ∈ getAllCameras reg b → "rtspUrl" ∉ objKeys o := by
    intro b o hmem
    have hmem2 : ∃ kv, kv ∈ reg ∧ cameraView (Prod.snd kv) = o := by
      unfold getAllCameras at hmem
      cases b with
      | false =>
        obtain ⟨a, b2, hab, hco⟩ := by simpa using hmem
        exact ⟨(a, b2), hab, hco⟩
      | true =>
        obtain ⟨⟨a, b2, hab, hco⟩, -⟩ := by simpa using hmem
        exact ⟨(a, b2), hab, hco⟩
    obtain ⟨kv, -, hkv⟩ := hmem2
    rw [← hkv, objKeys_cameraView]
    decide
  refine ⟨?_, ?_, hall, fun o h => hall true o h⟩
  · unfold registerCamera at hreg
    split_ifs at hreg
    simp only [Except.ok.injEq, Prod.mk.injEq] at hreg
    obtain ⟨hv, _⟩ := hreg
    rw [← hv, objKeys_registerReturnView]
    decide
  · intro o h
    unfold getCamera at h
    split_ifs at h
    cases hm : reg.lookup cameraId with
    | none => rw [hm] at h; exact absurd h (by simp)
    | some o0 =>
      rw [hm] at h
      simp only [Option.some.injEq] at h
      rw [← h, objKeys_cameraView]
      decide

/-- Witness for C8 at a concrete registration. -/
theorem rtspUrl_stripped_from_projections_witness :
    "rtspUrl" ∉ objKeys (registerReturnView (storedCameraData 7
      { cameraId := "CAM_01", rtspUrl := "rtsp://user:pw@host/stream",
        location := none, enabled := none })) :=
  (rtspUrl_stripped_from_projections 7 []
    [("CAM_01", storedCameraData 7
      { cameraId := "CAM_01", rtspUrl := "rtsp://user:pw@host/stream",
        location := none, enabled := none })]
    { cameraId := "CAM_01", rtspUrl := "rtsp://user:pw@host/stream",
      location := none, enabled := none }
    (registerReturnView (storedCameraData 7
      { cameraId := "CAM_01", rtspUrl := "rtsp://user:pw@host/stream",
        location := none, enabled := none }))
    "CAM_01" rfl).1

/-- Invariants I5 and I6 for a single session: CONNECTED implies a
non-null `callStartedAt`, and IDLE or ENDED implies both call fields are
null. -/
def callInv (s : SessionData) : Prop :=
  (s.callState = "connected" → s.callStartedAt ≠ none) ∧
  (s.callState = "idle" ∨ s.callState = "ended" →
    s.callInitiatedBy = none ∧ s.callStartedAt = none)

/-- I5 and I6 for every session in the store. -/
def storeCallInv (store : SessionStore) : Prop :=
  ∀ k s, store k = some s → callInv s

/-- A freshly created session satisfies I5 and I6. -/
lemma callInv_newSessionData (now : Nat) (k m ms : String) :
    callInv (newSessionData now k m ms) := by
  constructor
  · intro h
    simp [newSessionData] at h
  · intro _
    exact ⟨rfl, rfl⟩

/-- The session mutation of `updateCallState` establishes I5 and I6
whatever the previous session contents. -/
lemma callInv_applyCallState (now : Nat) (cs : String) (ib : Option String)
    (s : SessionData) : callInv (applyCallState now cs ib s) := by
  have base : ∀ s2 : SessionData, s2.callState = cs →
      callInv (if cs = "ended" ∨ cs = "idle" then
                 { (if cs = "connected" ∧ s2.callStartedAt = none then
                      { s2 with callStartedAt := some now } else s2) with
                   callStartedAt := none, callInitiatedBy := none }
               else
                 (if cs = "connected" ∧ s2.callStartedAt = none then
                      { s2 with callStartedAt := some now } else s2)) := by
    intro s2 hs2
    have h3cs : (if cs = "connected" ∧ s2.callStartedAt = none then
        { s2 with callStartedAt := some now } else s2).callState = cs := by
      split_ifs <;> exact hs2
    by_cases h4 : cs = "ended" ∨ cs = "idle"
    · rw [if_pos h4]
      refine ⟨fun hc => ?_, fun _ => ⟨rfl, rfl⟩⟩
      have hcc : cs = "connected" := h3cs ▸ hc
      rcases h4 with h4 | h4 <;> rw [h4] at hcc <;> exact absurd hcc (by decide)
    · rw [if_neg h4]
      refine ⟨fun hc => ?_, fun hie => ?hie2⟩
      case hie2 =>
        rw [h3cs] at hie
        exact absurd (Or.symm hie) h4
      have hcc : cs = "connected" := h3cs ▸ hc
      by_cases h3 : cs = "connected" ∧ s2.callStartedAt = none
      · rw [if_pos h3]
        simp
      · rw [if_neg h3]
        exact fun hn => h3 ⟨hcc, hn⟩
  unfold applyCallState
  rcases ib with - | v
  · exact base { s with callState := cs } rfl
  · exact base (if v = "" then { s with callState := cs }
                else { { s with callState := cs } with callInitiatedBy := some v })
      (by split_ifs <;> rfl)

/-- C6: invariants I5 and I6 hold for every session in every reachable
state of the session store: a successful `createSession` yields a session
satisfying them and preserves them store-wide, and every `updateCallState`
call preserves them store-wide (for any call-state string and initiator,
including the no-op failure paths). -/
theorem session_call_invariants (now : Nat) (store : SessionStore) :
    (∀ kid mid msid sd store1, storeCallInv store →
      createSession now store kid mid msid = Except.ok (sd, store1) →
      callInv sd ∧ storeCallInv store1) ∧
    (∀ kid cs ib, storeCallInv store →
      storeCallInv (updateCallState now store kid cs ib).2) := by
  constructor
  · intro kid mid msid sd store1 hinv hcr
    unfold createSession at hcr
    split_ifs at hcr
    simp only [Except.ok.injEq, Prod.mk.injEq] at hcr
    obtain ⟨hsd, hst⟩ := hcr
    subst hsd
    subst hst
    refine ⟨callInv_newSessionData now kid mid msid, ?_⟩
    intro k2 s2 h2
    by_cases hkk : k2 = kid
    · simp only [hkk, if_pos, Option.some.injEq] at h2
      subst h2
      exact callInv_newSessionData now kid mid msid
    · simp only [hkk, if_neg, ite_false] at h2
      exact hinv k2 s2 h2
  · intro kid cs ib hinv
    unfold updateCallState
    split_ifs with h1
    · exact hinv
    · cases hs : store kid with
      | none =>
        simp only [hs]
        exact hinv
      | some s =>
        simp only [hs]
        intro k2 s2 h2
        by_cases hkk : k2 = kid
        · simp only [hkk, if_pos, Option.some.injEq] at h2
          subst h2
          exact callInv_applyCallState now cs ib s
        · simp only [hkk, if_neg, ite_false] at h2
          exact hinv k2 s2 h2

/-- Witness for C6: the session created in an empty store at a concrete
input satisfies I5 and I6. -/
theorem session_call_invariants_witness :
    callInv (newSessionData 3 "K1" "M1" "S1") ∧
    storeCallInv (fun k =>
      if k = "K1" then some (newSessionData 3 "K1" "M1" "S1") else none) :=
  (session_call_invariants 3 (fun _ => none)).1 "K1" "M1" "S1"
    (newSessionData 3 "K1" "M1" "S1")
    (fun k => if k = "K1" then some (newSessionData 3 "K1" "M1" "S1") else none)
    (fun _ _ h => nomatch h) rfl

/-- The field-wise media assignment is idempotent. -/
lemma applyMediaArg_idem (arg : MediaStateArg) (m : MediaFlags) :
    applyMediaArg arg (applyMediaArg arg m) = applyMediaArg arg m := by
  rcases arg with ⟨v, a⟩
  cases v <;> cases a <;> rfl

/-- The per-session mutation of `updateMediaState` is idempotent. -/
lemma applyMediaRole_idem (role : String) (arg : MediaStateArg)
    (s : SessionData) :
    applyMediaRole role arg (applyMediaRole role arg s) =
      applyMediaRole role arg s := by
  unfold applyMediaRole
  split_ifs <;> simp [applyMediaArg_idem]

/-- When the session exists and the arguments are non-falsy,
`updateMediaState` updates exactly the one entry. -/
lemma updateMediaState_some (store : SessionStore) (k role : String)
    (arg : MediaStateArg) (s : SessionData) (h1 : ¬(k = "" ∨ role = ""))
    (hs : store k = some s) :
    updateMediaState store k role arg =
      (true, fun k2 => if k2 = k then some (applyMediaRole role arg s)
                       else store k2) := by
  simp only [updateMediaState, if_neg h1, hs]

/-- C9: `updateMediaState` is idempotent: applying it twice with the same
kiosk, role and media argument returns the same result and the same store
as applying it once; in particular, after a `toggle-video enabled=true`
from the monitor the stored `mediaState.monitor.videoEnabled` is true (so
a second identical toggle leaves it true). -/
theorem updateMediaState_idempotent (store : SessionStore) (k role : String)
    (arg : MediaStateArg) :
    updateMediaState (updateMediaState store k role arg).2 k role arg =
      updateMediaState store k role arg ∧
    (∀ s, store k = some s → k ≠ "" →
      ((updateMediaState store k "monitor"
          { videoEnabled := some true, audioEnabled := none }).2 k).map
        (fun s1 => s1.mediaMonitor.videoEnabled) = some true) := by
  constructor
  · by_cases h1 : k = "" ∨ role = ""
    · simp only [updateMediaState, if_pos h1]
    · cases hs : store k with
      | none => simp only [updateMediaState, if_neg h1, hs]
      | some s =>
        rw [updateMediaState_some store k role arg s h1 hs,
            updateMediaState_some _ k role arg (applyMediaRole role arg s) h1
              (by simp)]
        simp only [Prod.mk.injEq, true_and]
        funext k2
        by_cases hkk : k2 = k
        · simp [hkk, applyMediaRole_idem]
        · simp [hkk]
  · intro s hs hk
    have h1 : ¬(k = "" ∨ ("monitor" : String) = "") := by simp [hk]
    rw [updateMediaState_some store k "monitor" _ s h1 hs]
    simp [applyMediaRole, applyMediaArg]

/-- C2: for a start-monitoring command naming a present kiosk (with
non-falsy identifiers, which is what the hub passes): if a session for the
kiosk exists with a different owner, the reply is SESSION_CONFLICT and the
session map is returned unchanged; otherwise — no session, or a session
owned by the same monitor — the reply is monitoring-started and the map
now holds a fresh session for the kiosk, whose `callState` is idle. -/
theorem startMonitoring_conflict_and_create (now : Nat) (store : SessionStore)
    (k m ms : String) (hk : k ≠ "") (hm : m ≠ "") (hms : ms ≠ "") :
    (∀ s, store k = some s → s.monitorId ≠ m →
      startMonitoring now true store k m ms =
        (MonitorReply.errorReply "SESSION_CONFLICT", store)) ∧
    ((store k = none ∨ (∃ s, store k = some s ∧ s.monitorId = m)) →
      (startMonitoring now true store k m ms).1 =
        MonitorReply.monitoringStarted k ∧
      (startMonitoring now true store k m ms).2 k =
        some (newSessionData now k m ms) ∧
      (newSessionData now k m ms).callState = "idle") := by
  have hargs : ¬(k = "" ∨ m = "" ∨ ms = "") := by simp [hk, hm, hms]
  constructor
  · intro s hs hneq
    simp [startMonitoring, hs, hneq]
  · intro hcase
    rcases hcase with hs | ⟨s, hs, heq⟩
    · simp [startMonitoring, createSession, hargs, hs, newSessionData]
    · simp [startMonitoring, createSession, endSession, hargs, hs, heq, hk,
        hm, hms, newSessionData]

/-- Witness for C2: starting monitoring in an empty store at concrete
identifiers replies monitoring-started with an idle session. -/
theorem startMonitoring_conflict_and_create_witness :
    (startMonitoring 4 true (fun _ => none) "K1" "M1" "S1").1 =
      MonitorReply.monitoringStarted "K1" ∧
    (startMonitoring 4 true (fun _ => none) "K1" "M1" "S1").2 "K1" =
      some (newSessionData 4 "K1" "M1" "S1") ∧
    (newSessionData 4 "K1" "M1" "S1").callState = "idle" :=
  (startMonitoring_conflict_and_create 4 (fun _ => none) "K1" "M1" "S1"
    (by decide) (by decide) (by decide)).2 (Or.inl rfl)

/-- Witness for C9: two identical enable-video toggles from the monitor at
a concrete store leave the stored flag true. -/
theorem updateMediaState_idempotent_witness :
    ((updateMediaState
        (fun k => if k = "K1" then some (newSessionData 0 "K1" "M1" "S1")
                  else none)
        "K1" "monitor"
        { videoEnabled := some true, audioEnabled := none }).2 "K1").map
      (fun s1 => s1.mediaMonitor.videoEnabled) = some true :=
  (updateMediaState_idempotent
    (fun k => if k = "K1" then some (newSessionData 0 "K1" "M1" "S1") else none)
    "K1" "monitor" { videoEnabled := some true, audioEnabled := none }).2
    (newSessionData 0 "K1" "M1" "S1") rfl (by decide)

/-- C4: a stream token minted by `generateStreamToken` and presented at
the exact wall-clock instant `expiresAt` is rejected with error
`Token expired` — not through the gateway's own `expiresAt < now` test
(which at equality does not fire) but through the `exp` claim that
`jwt.sign` embedded (`expiresIn`), which `jwt.verify` rejects as soon as
`Math.floor(now/1000) ≥ exp`; and in general a minted token is accepted
only strictly before `expiresAt`. -/
theorem token_at_exact_expiry_rejected
    (verify : String → SigCheck) (tok cid mid : String) (n0 ttl : Nat)
    (st : GatewayState)
    (hver : verify tok = SigCheck.ok (mintedPayload cid mid n0 ttl))
    (hfresh : st.usedTokens.lookup tok = none) :
    (validateStreamToken verify (n0 + ttl * 1000) st (some tok)).1 =
      invalidResult "Token expired" ∧
    (∀ t st1, (validateStreamToken verify t st1 (some tok)).1.valid = true →
      t < n0 + ttl * 1000) := by
  have hdiv : (n0 + ttl * 1000) / 1000 = n0 / 1000 + ttl :=
    Nat.add_mul_div_right n0 ttl (by omega)
  constructor
  · have hjwt : (mintedPayload cid mid n0 ttl).exp ≤ (n0 + ttl * 1000) / 1000 := by
      rw [hdiv]
      exact Nat.le.refl
    simp only [validateStreamToken, hfresh, Option.isSome_none,
      Bool.false_eq_true, if_false, hver, if_pos hjwt]
  · intro t st1 hacc
    by_cases hl : (st1.usedTokens.lookup tok).isSome
    · simp [validateStreamToken, hl, invalidResult] at hacc
    · by_cases hjwt : (mintedPayload cid mid n0 ttl).exp ≤ t / 1000
      · simp [validateStreamToken, hl, hver, hjwt, invalidResult] at hacc
      · have hlt : t / 1000 < n0 / 1000 + ttl := by
          simpa [mintedPayload] using Nat.lt_of_not_le hjwt
        have : t / 1000 < (n0 + ttl * 1000) / 1000 := by rw [hdiv]; exact hlt
        by_contra hge
        have hle : n0 + ttl * 1000 ≤ t := Nat.le_of_not_lt hge
        exact absurd (Nat.div_le_div_right hle) (Nat.not_le_of_lt this)

/-- Witness for C4 at a concrete minted token and the empty replay set. -/
theorem token_at_exact_expiry_rejected_witness :
    (validateStreamToken
        (fun s => if s = "tok1" then
            SigCheck.ok (mintedPayload "CAM_01" "MON_01" 500 60)
          else SigCheck.badSignature)
        (500 + 60 * 1000) { usedTokens := [] } (some "tok1")).1 =
      invalidResult "Token expired" :=
  (token_at_exact_expiry_rejected
    (fun s => if s = "tok1" then
        SigCheck.ok (mintedPayload "CAM_01" "MON_01" 500 60)
      else SigCheck.badSignature)
    "tok1" "CAM_01" "MON_01" 500 60 { usedTokens := [] }
    (by decide) rfl).1

/-- An accepting validation pushes the token onto the replay set, keyed by
the expiry from its payload. -/
lemma validate_accept_head (verify : String → SigCheck) (now : Nat)
    (st : GatewayState) (tok : String)
    (hacc : (validateStreamToken verify now st (some tok)).1.valid = true) :
    ∃ p1 e1, verify tok = SigCheck.ok p1 ∧ p1.expiresAtMs = some e1 ∧
      (validateStreamToken verify now st (some tok)).2.usedTokens =
        (tok, e1) :: st.usedTokens := by
  by_cases hl : (st.usedTokens.lookup tok).isSome
  · simp [validateStreamToken, hl, invalidResult] at hacc
  · cases hv : verify tok with
    | badSignature => simp [validateStreamToken, hl, hv, invalidResult] at hacc
    | ok p =>
      by_cases hexp : p.exp ≤ now / 1000
      · simp [validateStreamToken, hl, hv, hexp, invalidResult] at hacc
      · cases hc : p.cameraId with
        | none =>
          simp [validateStreamToken, hl, hv, hexp, hc, invalidResult] at hacc
        | some cid =>
          cases he : p.expiresAtMs with
          | none =>
            simp [validateStreamToken, hl, hv, hexp, hc, he, invalidResult]
              at hacc
          | some e1 =>
            by_cases hlt : e1 < now
            · simp [validateStreamToken, hl, hv, hexp, hc, he, hlt] at hacc
            · exact ⟨p, e1, rfl, he,
                by simp [validateStreamToken, hl, hv, hexp, hc, he, hlt]⟩

/-- C10: a token checked successfully through POST /validate-token is
consumed: a subsequent viewer admission at /webrtc presenting the same
token (at any later instant, on the state the endpoint left behind) is
rejected 401 with reason `Token already used`. -/
theorem validate_endpoint_consumes_token
    (verify : String → SigCheck) (t0 t1 : Nat) (st : GatewayState)
    (tok : String)
    (hok : (postValidateToken verify t0 st (some tok)).1.valid = true) :
    (verifyClient verify t1 (postValidateToken verify t0 st (some tok)).2
        (some tok)).1 =
      ClientDecision.reject 401 "Token already used" := by
  have hacc : (validateStreamToken verify t0 st (some tok)).1.valid = true := hok
  obtain ⟨p1, e1, -, -, he⟩ := validate_accept_head verify t0 st tok hacc
  have hst2 : (postValidateToken verify t0 st (some tok)).2 =
      (validateStreamToken verify t0 st (some tok)).2 := rfl
  rw [hst2]
  set st2 := (validateStreamToken verify t0 st (some tok)).2 with hst2def
  have hl : (st2.usedTokens.lookup tok).isSome := by
    rw [he]
    simp [List.lookup]
  simp [verifyClient, validateStreamToken, hl, invalidResult]

/-- A concrete shared-key check for witnesses and counterexamples: exactly
one well-signed token string, minted at time 0 with the default 60 s TTL. -/
def demoVerify : String → SigCheck :=
  fun s =>
    if s = "tok1" then SigCheck.ok (mintedPayload "CAM_01" "MON_01" 0 60)
    else SigCheck.badSignature

/-- Witness for C10 at a concrete token and the empty replay set. -/
theorem validate_endpoint_consumes_token_witness :
    (verifyClient demoVerify 5
        (postValidateToken demoVerify 2 { usedTokens := [] }
          (some "tok1")).2 (some "tok1")).1 =
      ClientDecision.reject 401 "Token already used" :=
  validate_endpoint_consumes_token demoVerify 2 5 { usedTokens := [] } "tok1"
    (by decide)

/-- A lookup hit survives filtering unless the entry itself is dropped. -/
lemma lookup_filter_or (p : String × Nat → Bool) :
    ∀ (l : List (String × Nat)) (a : String) (v : Nat),
      l.lookup a = some v →
      (l.filter p).lookup a = some v ∨ p (a, v) = false := by
  intro l
  induction l with
  | nil =>
    intro a v h
    simp [List.lookup] at h
  | cons kv l ih =>
    intro a v h
    obtain ⟨k, w⟩ := kv
    by_cases hbeq : (a == k) = true
    · have hav : w = v := by simpa [List.lookup, hbeq] using h
      subst hav
      have hak : a = k := by simpa using hbeq
      subst hak
      cases hp : p (a, w) with
      | true => exact Or.inl (by simp [List.filter_cons, hp, List.lookup])
      | false => exact Or.inr rfl
    · have htail : l.lookup a = some v := by
        simpa [List.lookup, hbeq] using h
      cases hp : p (k, w) with
      | true =>
        rcases ih a v htail with h2 | h2
        · exact Or.inl (by simp [List.filter_cons, hp, List.lookup, hbeq, h2])
        · exact Or.inr h2
      | false =>
        rcases ih a v htail with h2 | h2
        · exact Or.inl (by simp [List.filter_cons, hp, h2])
        · exact Or.inr h2

/-- Once a token has been accepted with stored expiry `e`, every reachable
replay-set state either still holds an entry for the token, or a sweep has
removed it — which can only happen after `e` has passed; `t` is any upper
bound on all event times involved. -/
def replayGuard (tok : String) (e t : Nat) (st : GatewayState) : Prop :=
  st.usedTokens.lookup tok = some e ∨ e < t

/-- A validation call (of any token, at any instant) preserves the
guard: rejections leave the replay set unchanged, an acceptance of a
different token leaves the entry in place, and a (time-travelling)
re-acceptance of the same token can only start from the swept case. -/
lemma replayGuard_validate (verify : String → SigCheck) (tok tok2 : String)
    (e t tv : Nat) (st : GatewayState) (h : replayGuard tok e t st) :
    replayGuard tok e t (validateStreamToken verify tv st (some tok2)).2 := by
  by_cases hl : (st.usedTokens.lookup tok2).isSome
  · simpa [validateStreamToken, hl] using h
  · cases hv : verify tok2 with
    | badSignature => simpa [validateStreamToken, hl, hv] using h
    | ok p2 =>
      by_cases hexp2 : p2.exp ≤ tv / 1000
      · simpa [validateStreamToken, hl, hv, hexp2] using h
      · cases hc : p2.cameraId with
        | none => simpa [validateStreamToken, hl, hv, hexp2, hc] using h
        | some cid =>
          cases he2 : p2.expiresAtMs with
          | none => simpa [validateStreamToken, hl, hv, hexp2, hc, he2] using h
          | some e2 =>
            by_cases hlt : e2 < tv
            · simpa [validateStreamToken, hl, hv, hexp2, hc, he2, hlt] using h
            · have hstate : (validateStreamToken verify tv st
                  (some tok2)).2.usedTokens = (tok2, e2) :: st.usedTokens := by
                simp [validateStreamToken, hl, hv, hexp2, hc, he2, hlt]
              rcases h with h | h
              · by_cases htok : tok2 = tok
                · subst htok
                  exact absurd (by simp [h]) hl
                · left
                  rw [hstate]
                  have hbeq : (tok == tok2) = false := by
                    simp [Ne.symm htok]
                  simp [List.lookup, hbeq, h]
              · exact Or.inr h

/-- A sweep preserves the guard: it removes the entry only when the stored
expiry is strictly before the sweep instant, which is below the bound. -/
lemma replayGuard_sweep (tok : String) (e t ts : Nat) (hts : ts ≤ t)
    (st : GatewayState) (h : replayGuard tok e t st) :
    replayGuard tok e t (sweepUsedTokens ts st) := by
  rcases h with h | h
  · rcases lookup_filter_or (fun kv => decide (ts ≤ kv.2)) st.usedTokens tok e h
      with h2 | h2
    · exact Or.inl h2
    · right
      have : ¬ ts ≤ e := by simpa using h2
      omega
  · exact Or.inr h

/-- The guard is preserved along every event trace whose times stay below
the bound. -/
lemma replayGuard_run (verify : String → SigCheck) (tok : String)
    (e t : Nat) :
    ∀ (evs : List GwEvent) (st : GatewayState),
      (∀ ev ∈ evs, eventTime ev ≤ t) → replayGuard tok e t st →
      replayGuard tok e t (gwRun verify st evs) := by
  intro evs
  induction evs with
  | nil =>
    intro st _ h
    exact h
  | cons ev evs ih =>
    intro st hts h
    have h1 : replayGuard tok e t (gwStep verify st ev) := by
      cases ev with
      | validateEv tok2 tv => exact replayGuard_validate verify tok tok2 e t tv st h
      | sweepEv ts =>
        exact replayGuard_sweep tok e t ts
          (hts (GwEvent.sweepEv ts) (List.mem_cons_self _ _)) st h
    exact ih (gwStep verify st ev)
      (fun ev2 hm => hts ev2 (List.mem_cons_of_mem _ hm)) h1

/-- C1 (amended): once `validateStreamToken` has accepted a well-signed
minted token (whose jwt `exp` claim, in seconds, is at or below its
`expiresAt` claim, in ms — true of everything `generateStreamToken`
signs), no later call ever accepts the same token string again, across
any interleaving of validations of arbitrary tokens and periodic sweeps:
the later call returns invalid, with error `Token already used` while the
replay entry persists and `Token expired` once the sweep has purged the
(by then expired) entry. -/
theorem accepted_token_never_accepted_again
    (verify : String → SigCheck) (tok : String) (p : TokenPayload) (e : Nat)
    (st0 : GatewayState) (t0 t : Nat) (evs : List GwEvent)
    (hver : verify tok = SigCheck.ok p) (hexp : p.expiresAtMs = some e)
    (hwf : 1000 * p.exp ≤ e)
    (hacc : (validateStreamToken verify t0 st0 (some tok)).1.valid = true)
    (hts : ∀ ev ∈ evs, eventTime ev ≤ t) :
    (validateStreamToken verify t
        (gwRun verify (validateStreamToken verify t0 st0 (some tok)).2 evs)
        (some tok)).1.valid = false ∧
    ((validateStreamToken verify t
        (gwRun verify (validateStreamToken verify t0 st0 (some tok)).2 evs)
        (some tok)).1.error = some "Token already used" ∨
     (validateStreamToken verify t
        (gwRun verify (validateStreamToken verify t0 st0 (some tok)).2 evs)
        (some tok)).1.error = some "Token expired") := by
  obtain ⟨p1, e1, hv1, he1, hhead⟩ := validate_accept_head verify t0 st0 tok hacc
  rw [hver] at hv1
  injection hv1 with hp1
  subst hp1
  rw [hexp] at he1
  injection he1 with he1e
  subst he1e
  have hg0 : replayGuard tok e t (validateStreamToken verify t0 st0 (some tok)).2 := by
    left
    rw [hhead]
    simp [List.lookup]
  set stf := gwRun verify (validateStreamToken verify t0 st0 (some tok)).2 evs
    with hstf
  have hgf := replayGuard_run verify tok e t evs
    (validateStreamToken verify t0 st0 (some tok)).2 hts hg0
  rw [← hstf] at hgf
  by_cases hl : (stf.usedTokens.lookup tok).isSome
  · constructor
    · simp [validateStreamToken, hl, invalidResult]
    · left
      simp [validateStreamToken, hl, invalidResult]
  · have hel : e < t := by
      rcases hgf with hgf | hgf
      · exact absurd (by simp [hgf]) hl
      · exact hgf
    have hjwt : p.exp ≤ t / 1000 := by
      have h1 : p.exp * 1000 ≤ t := by omega
      exact (Nat.le_div_iff_mul_le (by omega)).mpr h1
    constructor
    · simp [validateStreamToken, hl, hver, hjwt, invalidResult]
    · right
      simp [validateStreamToken, hl, hver, hjwt, invalidResult]

/-- Witness for C1 at a concrete token, trace and times. -/
theorem accepted_token_never_accepted_again_witness :
    (validateStreamToken demoVerify 400000
        (gwRun demoVerify
          (validateStreamToken demoVerify 0 { usedTokens := [] }
            (some "tok1")).2
          [GwEvent.sweepEv 300000])
        (some "tok1")).1.valid = false :=
  (accepted_token_never_accepted_again demoVerify "tok1"
    (mintedPayload "CAM_01" "MON_01" 0 60) 60000 { usedTokens := [] } 0 400000
    [GwEvent.sweepEv 300000] (by decide) rfl (by decide) (by decide)
    (by decide)).1

/-- C1 counterexample: the claim as stated — every later call with an
accepted token returns error `Token already used` — fails once the 5-min
sweep has purged the expired entry.  `tok1` is accepted at time 0 with
expiry 60000 ms; the sweep at 300000 ms deletes the replay entry; the
revalidation at 300000 ms then reports `Token expired`, not
`Token already used` (it is still rejected). -/
theorem replay_error_changes_after_sweep :
    (validateStreamToken demoVerify 0 { usedTokens := [] }
        (some "tok1")).1.valid = true ∧
    (validateStreamToken demoVerify 300000
        (gwRun demoVerify
          (validateStreamToken demoVerify 0 { usedTokens := [] }
            (some "tok1")).2
          [GwEvent.sweepEv 300000])
        (some "tok1")).1.error = some "Token expired" ∧
    (some "Token expired" ≠ (some "Token already used" : Option String)) := by
  decide

end RailwayMonitoring
